import Mathlib

/-!
Shallow embedding of the authenticated-request execution pipeline of the
py-guacamole-api client library: the retry policy and loop
(guac_client/retry.py), the response classifier (guac_client/errors.py)
and the token-expiry / auth-flow logic (guac_api/auth.py).

Python floats are modelled as rationals, HTTP statuses and attempt
counters as naturals.  The stdlib float-string conversion used by
extract_retry_after_seconds is external to the repository and is passed
in as a function argument; theorems about it assume only that the empty
string is not a number, which is true of the Python builtin.
-/

/-- Kinds of exception raised by the transport, standing in for the
Python exception classes checked by isinstance in retry.py. -/
inductive ExcKind where
  | connectError
  | readTimeout
  | connectTimeout
  | remoteProtocolError
  | httpStatusError
  | otherExc
deriving DecidableEq, Repr

/-- The view of a decoded JSON body used by raise_for_response: the three
fields it reads via data.get.  A field absent from the body is none. -/
structure JsonObj where
  code : Option String
  message : Option String
  error : Option String
deriving DecidableEq, Repr

/-- The parts of an httpx.Response the pipeline reads: the status code,
the Retry-After header (none when absent), the outcome of resp.json()
(none when decoding raises), and resp.text. -/
structure Response where
  status_code : Nat
  retry_after_header : Option String := none
  json : Option JsonObj := none
  text : String := ""
deriving DecidableEq, Repr

/-- The part of an httpx.Request the retry logic reads: its method. -/
structure Request where
  method : String
deriving DecidableEq, Repr

/-- Python truthiness-based `a or b` for an optional string: a missing or
empty string falls through to the alternative. -/
def pyOrStr (a : Option String) (b : String) : String :=
  match a with
  | some s => if s = "" then b else s
  | none => b

/-- The Python builtin min on two floats: keeps the first argument unless
the second is strictly smaller. -/
def pymin (a b : ℚ) : ℚ := if b < a then b else a

/-- The Python builtin max on two floats: keeps the first argument unless
the second is strictly larger. -/
def pymax (a b : ℚ) : ℚ := if a < b then b else a

/-- The Python str.upper method on the ASCII strings HTTP methods are
made of. -/
def str_upper (s : String) : String := ⟨s.data.map Char.toUpper⟩

/- ===== guac_client/errors.py ===== -/

/-- The typed error hierarchy of errors.py, restricted to the classes
get_error_by_status can return. -/
inductive ErrorClass where
  | authError
  | permissionError
  | notFoundError
  | rateLimitError
  | serverError
  | httpError
deriving DecidableEq, Repr

/-- The data carried by a raised HttpError: class, status, detail, code. -/
structure RaisedError where
  cls : ErrorClass
  status : Nat
  detail : String
  code : Option String
deriving DecidableEq, Repr

/-- errors.get_error_by_status: map a status code to the exception class,
following the match statement in the source. -/
def get_error_by_status (status : Nat) : ErrorClass :=
  if status = 401 then .authError
  else if status = 403 then .permissionError
  else if status = 404 then .notFoundError
  else if status = 408 ∨ status = 429 then .rateLimitError
  else if 500 ≤ status ∧ status < 600 then .serverError
  else .httpError

/-- errors.raise_for_response: returns none when the function returns
normally (2xx), otherwise the raised error.  The code/detail extraction
mirrors the try block: on a decoded JSON body, code is the code
field or the stringified status, and detail is message, else error, else
the raw text; when decoding raises, detail falls back to the raw text
(or a fixed message when the text is empty) and code to the status. -/
def raise_for_response (resp : Response) : Option RaisedError :=
  if 200 ≤ resp.status_code ∧ resp.status_code < 300 then none
  else
    let pair : String × String :=
      match resp.json with
      | some data =>
          (pyOrStr data.code (toString resp.status_code),
           pyOrStr data.message (pyOrStr data.error resp.text))
      | none =>
          (toString resp.status_code,
           pyOrStr (some resp.text)
             ("Guacamole API Request Failed, HTTP " ++ toString resp.status_code))
    some { cls := get_error_by_status resp.status_code
           status := resp.status_code
           detail := pair.2
           code := some pair.1 }

/- ===== guac_client/retry.py ===== -/

/-- RetryPolicy with the defaults of the dataclass in retry.py.  The
jitter pair is split into two fields; the optional custom predicate
returns none when the Python hook raises. -/
structure RetryPolicy where
  max_attempts : Nat := 3
  retry_methods : List String := ["GET", "HEAD", "OPTIONS", "TRACE", "PUT", "DELETE"]
  retry_statuses : List Nat := [429, 500, 502, 503, 504, 408]
  retry_on_exceptions : List ExcKind :=
    [.connectError, .readTimeout, .connectTimeout, .remoteProtocolError]
  respect_retry_after : Bool := true
  base_delay : ℚ := 1/4
  max_delay : ℚ := 8
  backoff_multiplier : ℚ := 2
  jitter_lo : ℚ := 0
  jitter_hi : ℚ := 1/4
  should_retry_hook : Option (Request → Nat → Sum Response ExcKind → Option Bool) := none

/-- retry.extract_retry_after_seconds.  The float builtin is passed in as
pf; a missing or falsy (empty) header yields none, an unparseable header
yields none, and a parsed value x yields max 0 x. -/
def extract_retry_after_seconds (pf : String → Option ℚ) (resp : Response) : Option ℚ :=
  match resp.retry_after_header with
  | none => none
  | some h =>
      if h = "" then none
      else
        match pf h with
        | some x => some (pymax 0 x)
        | none => none

/-- retry.calculate_delay.  The single uniform jitter draw of the
executed branch is passed in as j. -/
def calculate_delay (pf : String → Option ℚ) (attempt : Nat) (policy : RetryPolicy)
    (response : Option Response) (j : ℚ) : ℚ :=
  let hint : Option ℚ :=
    match response with
    | some r => if policy.respect_retry_after then extract_retry_after_seconds pf r else none
    | none => none
  match hint with
  | some retry_after_delay => pymin policy.max_delay (retry_after_delay + j)
  | none =>
      let base_delay := policy.base_delay * policy.backoff_multiplier ^ (attempt - 1)
      let delay_with_cap := pymin base_delay policy.max_delay
      delay_with_cap + j

/-- Lines 129-137 of retry.should_retry_request: the decision computed
before the optional hook runs.  A transport outcome is retryable when its
kind is among retry_on_exceptions, a response when its status is among
retry_statuses; either way the decision is cancelled when the uppercased
request method is not among retry_methods. -/
def computed_retry_decision (request : Request) (result : Sum Response ExcKind)
    (policy : RetryPolicy) : Bool :=
  let s0 : Bool :=
    match result with
    | .inr e => e ∈ policy.retry_on_exceptions
    | .inl r => r.status_code ∈ policy.retry_statuses
  if s0 ∧ str_upper request.method ∉ policy.retry_methods then false else s0

/-- retry.should_retry_request: the computed decision, overridden by the
custom hook when one is configured and it returns normally; a hook that
raises is suppressed and the prior value kept. -/
def should_retry_request (request : Request) (attempt : Nat)
    (result : Sum Response ExcKind) (policy : RetryPolicy) : Bool :=
  let s := computed_retry_decision request result policy
  match policy.should_retry_hook with
  | some hook =>
      match hook request attempt result with
      | some b => b
      | none => s
  | none => s

/-- How a run of send_with_retries_sync ends: a returned response, a
raised exception, or the impossible assert at the bottom of the loop. -/
inductive RunExit where
  | returned (r : Response)
  | raised (e : ExcKind)
  | assertFailed
deriving DecidableEq, Repr

/-- The while loop of retry.send_with_retries_sync.  sends gives the
outcome of the send on each attempt number, jit the uniform jitter draw
used on that attempt.  fuel counts the iterations the guard
attempt ≤ max_attempts still allows, so callers pass
max_attempts + 1 - attempt; fuel 0 is the loop exit, where the trailing
assert re-raises the last stored exception or fails.  The result is
(number of sends performed, delays slept in order, exit). -/
def send_loop (p : RetryPolicy) (request : Request) (pf : String → Option ℚ)
    (sends : Nat → Sum Response ExcKind) (jit : Nat → ℚ) :
    Option ExcKind → Nat → Nat → Nat × List ℚ × RunExit
  | lastExc, _, 0 =>
      (0, [], match lastExc with
        | some e => .raised e
        | none => .assertFailed)
  | lastExc, attempt, fuel + 1 =>
      let result := sends attempt
      let lastExc2 := match result with
        | .inr e => some e
        | .inl _ => lastExc
      if attempt < p.max_attempts ∧ should_retry_request request attempt result p then
        let response_for_delay : Option Response :=
          match result with
          | .inl r => some r
          | .inr _ => none
        let d := calculate_delay pf attempt p response_for_delay (jit attempt)
        let rest := send_loop p request pf sends jit lastExc2 (attempt + 1) fuel
        (rest.1 + 1, d :: rest.2.1, rest.2.2)
      else
        match result with
        | .inr e => (1, [], .raised e)
        | .inl r => (1, [], .returned r)

/-- retry.send_with_retries_sync: run the loop from attempt 1 with an
empty last exception.  fuel max_attempts encodes the loop guard
attempt ≤ max_attempts at attempt 1. -/
def send_with_retries_sync (p : RetryPolicy) (request : Request)
    (pf : String → Option ℚ) (sends : Nat → Sum Response ExcKind) (jit : Nat → ℚ) :
    Nat × List ℚ × RunExit :=
  send_loop p request pf sends jit none 1 p.max_attempts

/- ===== guac_api/auth.py ===== -/

/-- auth.GuacToken: the token string and its creation time. -/
structure GuacToken where
  token : String
  created_at : ℚ
deriving DecidableEq, Repr

/-- auth.has_token_expired: a missing token is expired; otherwise the
token is expired when the time elapsed since creation has reached the
idle timeout.  The wall clock read time.time() is passed in as now. -/
def has_token_expired (token : Option GuacToken) (idle_timeout : ℚ) (now : ℚ) : Bool :=
  match token with
  | none => true
  | some t => decide (now - t.created_at ≥ idle_timeout)

/-- The mutable state of a token provider: its idle timeout and the
cached token (none before first use). -/
structure ProviderState where
  idle_timeout : ℚ
  token : Option GuacToken
deriving DecidableEq, Repr

/-- auth.SyncTokenProvider.get_token, under the lock: refresh when there
is no cached token or it is expired, then return the cached token string.
fresh is the token the authenticate exchange would return; the Bool
records whether that exchange was performed. -/
def sync_get_token (st : ProviderState) (now : ℚ) (fresh : GuacToken) :
    ProviderState × String × Bool :=
  if st.token = none ∨ has_token_expired st.token st.idle_timeout now then
    ({ st with token := some fresh }, fresh.token, true)
  else
    (st, (st.token.getD fresh).token, false)

/-- The observable trace of one pass through GuacamoleSession.auth_flow:
the token attached to each send, in order, and how many authenticate
exchanges were performed. -/
structure FlowTrace where
  sent_tokens : List String
  exchanges : Nat
deriving DecidableEq, Repr

/-- auth.GuacamoleSession.auth_flow: attach a token from the provider and
send; when the response is a 401, consult the provider again, attach the
token it returns and send exactly once more.  now1/fresh1 belong to the
first get_token call, now2/fresh2 to the second; status1 is the status of
the first response.  Returns the trace and the final provider state. -/
def auth_flow (st0 : ProviderState) (now1 : ℚ) (fresh1 : GuacToken) (status1 : Nat)
    (now2 : ℚ) (fresh2 : GuacToken) : FlowTrace × ProviderState :=
  let r1 := sync_get_token st0 now1 fresh1
  let st1 := r1.1
  let tok1 := r1.2.1
  let ex1 : Nat := if r1.2.2 then 1 else 0
  if status1 = 401 then
    let r2 := sync_get_token st1 now2 fresh2
    ({ sent_tokens := [tok1, r2.2.1], exchanges := ex1 + (if r2.2.2 then 1 else 0) }, r2.1)
  else
    ({ sent_tokens := [tok1], exchanges := ex1 }, st1)

/- ===== concrete inputs used by witnesses and counterexamples ===== -/

/-- A float conversion that rejects every string, usable where the header
is absent anyway. -/
def pfNone : String → Option ℚ := fun _ => none

/-- A float conversion accepting exactly the string "-3", as the Python
builtin does, rejecting the empty string in particular. -/
def pfNeg3 : String → Option ℚ := fun s => if s = "-3" then some (-3) else none

/-- A jitter schedule drawing 0 on every attempt. -/
def jitZero : Nat → ℚ := fun _ => 0

/-- First 503 response of the retry scenarios. -/
def resp503a : Response := { status_code := 503, text := "first" }

/-- Second 503 response of the retry scenarios. -/
def resp503b : Response := { status_code := 503, text := "second" }

/-- Third 503 response of the retry scenarios. -/
def resp503c : Response := { status_code := 503, text := "third" }

/-- A plain 200 response. -/
def resp200s : Response := { status_code := 200 }

/-- The policy of the 503 scenarios: three attempts, 503 retryable. -/
def p503 : RetryPolicy := { max_attempts := 3, retry_statuses := [503] }

/-- The policy of the transport-error scenario: two attempts. -/
def pMax2 : RetryPolicy := { max_attempts := 2 }

/-- Send schedule answering 503, 503, then 200. -/
def sends_503_503_200 : Nat → Sum Response ExcKind := fun a =>
  if a = 1 then .inl resp503a else if a = 2 then .inl resp503b else .inl resp200s

/-- Send schedule answering 503 on all three attempts. -/
def sends_503_503_503 : Nat → Sum Response ExcKind := fun a =>
  if a = 1 then .inl resp503a else if a = 2 then .inl resp503b else .inl resp503c

/-- Send schedule raising a connect error on every attempt. -/
def sendsConnectError : Nat → Sum Response ExcKind := fun _ => .inr .connectError

/-- A custom retry hook that always returns true without raising. -/
def hookForcingRetry : Request → Nat → Sum Response ExcKind → Option Bool :=
  fun _ _ _ => some true

/-- A policy carrying the always-true custom hook. -/
def policyWithHook : RetryPolicy := { should_retry_hook := some hookForcingRetry }

/-- Provider state holding a cached token created at time 0 under a
300 second idle timeout. -/
def cachedState : ProviderState := { idle_timeout := 300, token := some ⟨"cached", 0⟩ }

/- ===== theorems ===== -/

/-- C3: for every positive idle timeout, has_token_expired reports a
token created at t0 expired at every check time at or past
t0 + idle_timeout and not expired at every check time strictly
before. -/
theorem has_token_expired_positive_boundary (idle t0 now : ℚ) (s : String)
    (h : 0 < idle) :
    (t0 + idle ≤ now → has_token_expired (some ⟨s, t0⟩) idle now = true) ∧
    (now < t0 + idle → has_token_expired (some ⟨s, t0⟩) idle now = false) := by
  refine ⟨fun hle => ?_, fun hlt => ?_⟩
  · simp only [has_token_expired, decide_eq_true_eq, ge_iff_le]
    linarith
  · simp only [has_token_expired, decide_eq_false_iff_not, ge_iff_le, not_le]
    linarith

/-- C3 witness: at idle timeout 5 and creation time 0 the token is
expired at check time 5 and not at check time 4. -/
theorem has_token_expired_positive_boundary_witness :
    has_token_expired (some ⟨"tok", 0⟩) 5 5 = true ∧
    has_token_expired (some ⟨"tok", 0⟩) 5 4 = false :=
  ⟨(has_token_expired_positive_boundary 5 0 5 "tok" (by norm_num)).1 (by norm_num),
   (has_token_expired_positive_boundary 5 0 4 "tok" (by norm_num)).2 (by norm_num)⟩

/-- C4 counterexample: with idle timeout 0 a token created at time 0 is
reported expired at check time 10, where the claim predicts not-expired
for every non-positive idle timeout. -/
theorem has_token_expired_nonpositive_counterexample :
    has_token_expired (some ⟨"tok", 0⟩) 0 10 = true := by
  simp only [has_token_expired, decide_eq_true_eq, ge_iff_le]
  norm_num

/-- C4 amended: with a non-positive idle timeout a stored token is
reported expired at every check time at or after its creation, because
the non-negative elapsed time always reaches the timeout; so every
elapse-of-time check forces a refresh rather than none. -/
theorem has_token_expired_nonpositive_always (idle t0 now : ℚ) (s : String)
    (hidle : idle ≤ 0) (hnow : t0 ≤ now) :
    has_token_expired (some ⟨s, t0⟩) idle now = true := by
  simp only [has_token_expired, decide_eq_true_eq, ge_iff_le]
  linarith

/-- C4 amended witness: idle timeout -1, creation time 2, check time 2. -/
theorem has_token_expired_nonpositive_always_witness :
    has_token_expired (some ⟨"tok", 2⟩) (-1) 2 = true :=
  has_token_expired_nonpositive_always (-1) 2 2 "tok" (by norm_num) le_rfl

/-- C1 counterexample: a connect error - whose kind is in the default
retry_on_exceptions - raised while sending a POST request is judged not
retryable, because the retry_methods set also gates the
transport-failure case, where the claim says it constrains only the
response-status case. -/
theorem should_retry_transport_method_counterexample :
    should_retry_request ⟨"POST"⟩ 1 (.inr .connectError) {} = false ∧
    ExcKind.connectError ∈ ({} : RetryPolicy).retry_on_exceptions := by
  constructor
  · simp [should_retry_request, computed_retry_decision,
      show str_upper "POST" = "POST" from rfl]
  · simp

/-- C1 amended: with no custom hook configured, a transport failure is
retryable iff its kind is in retry_on_exceptions and the uppercased
request method is in retry_methods, and a response is retryable iff its
status code is in retry_statuses and the uppercased request method is in
retry_methods - the retry_methods set gates both cases. -/
theorem should_retry_default_decision (req : Request) (a : Nat) (p : RetryPolicy)
    (hhook : p.should_retry_hook = none) :
    (∀ e : ExcKind, should_retry_request req a (.inr e) p =
      (decide (e ∈ p.retry_on_exceptions) &&
        decide (str_upper req.method ∈ p.retry_methods))) ∧
    (∀ r : Response, should_retry_request req a (.inl r) p =
      (decide (r.status_code ∈ p.retry_statuses) &&
        decide (str_upper req.method ∈ p.retry_methods))) := by
  constructor
  · intro e
    by_cases he : e ∈ p.retry_on_exceptions <;>
      by_cases hm : str_upper req.method ∈ p.retry_methods <;>
      simp [should_retry_request, computed_retry_decision, hhook, he, hm]
  · intro r
    by_cases hr : r.status_code ∈ p.retry_statuses <;>
      by_cases hm : str_upper req.method ∈ p.retry_methods <;>
      simp [should_retry_request, computed_retry_decision, hhook, hr, hm]

/-- C1 amended witness: a connect error on a GET with the default policy
is retryable. -/
theorem should_retry_default_decision_witness :
    should_retry_request ⟨"GET"⟩ 1 (.inr .connectError) {} = true := by
  have h := (should_retry_default_decision ⟨"GET"⟩ 1 {} rfl).1 .connectError
  rw [h]
  simp [show str_upper "GET" = "GET" from rfl]

/-- C5: when a custom hook is configured, a hook that returns normally
replaces the computed decision with its own value, and a hook that
raises is suppressed, leaving the decision at exactly the value the
default computation produced before the call. -/
theorem should_retry_hook_override (req : Request) (a : Nat)
    (result : Sum Response ExcKind) (p : RetryPolicy)
    (hook : Request → Nat → Sum Response ExcKind → Option Bool)
    (hp : p.should_retry_hook = some hook) :
    (∀ b, hook req a result = some b → should_retry_request req a result p = b) ∧
    (hook req a result = none →
      should_retry_request req a result p = computed_retry_decision req result p) := by
  constructor
  · intro b hb
    simp [should_retry_request, hp, hb]
  · intro hn
    simp [should_retry_request, hp, hn]

/-- C5 witness: the always-true hook makes a 200 response on a POST -
not retryable by the default computation - retryable. -/
theorem should_retry_hook_override_witness :
    should_retry_request ⟨"POST"⟩ 1 (.inl { status_code := 200 }) policyWithHook = true :=
  (should_retry_hook_override ⟨"POST"⟩ 1 (.inl { status_code := 200 }) policyWithHook
    hookForcingRetry rfl).1 true rfl

/-- C10: for any float conversion that rejects the empty string, as the
Python builtin does, extract_retry_after_seconds returns the parsed
value clamped below at zero whenever the header parses, never returns a
negative value, and returns none only when the header is missing or does
not parse as a number. -/
theorem extract_retry_after_clamp (pf : String → Option ℚ) (hempty : pf "" = none) :
    (∀ (resp : Response) (s : String) (x : ℚ), resp.retry_after_header = some s →
      pf s = some x → extract_retry_after_seconds pf resp = some (pymax 0 x)) ∧
    (∀ (resp : Response) (y : ℚ), extract_retry_after_seconds pf resp = some y → 0 ≤ y) ∧
    (∀ resp : Response, extract_retry_after_seconds pf resp = none →
      resp.retry_after_header = none ∨
      ∃ s, resp.retry_after_header = some s ∧ pf s = none) := by
  refine ⟨?_, ?_, ?_⟩
  · intro resp s x hh hx
    by_cases hs : s = ""
    · rw [hs] at hx
      rw [hempty] at hx
      exact absurd hx (by simp)
    · simp [extract_retry_after_seconds, hh, hs, hx]
  · intro resp y h
    cases hh : resp.retry_after_header with
    | none => simp [extract_retry_after_seconds, hh] at h
    | some s =>
        simp only [extract_retry_after_seconds, hh] at h
        by_cases hs : s = ""
        · rw [if_pos hs] at h; simp at h
        · rw [if_neg hs] at h
          cases hps : pf s with
          | none => rw [hps] at h; simp at h
          | some x =>
              rw [hps] at h
              simp only [Option.some.injEq] at h
              subst h
              by_cases h0 : (0 : ℚ) < x
              · simp only [pymax, if_pos h0]
                linarith
              · simp [pymax, h0]
  · intro resp h
    cases hh : resp.retry_after_header with
    | none => exact Or.inl rfl
    | some s =>
        refine Or.inr ⟨s, rfl, ?_⟩
        by_cases hs : s = ""
        · rw [hs]; exact hempty
        · simp only [extract_retry_after_seconds, hh, if_neg hs] at h
          cases hps : pf s with
          | none => rfl
          | some x => rw [hps] at h; simp at h

/-- C10 witness: the header string "-3" parses as -3 and is clamped to a
zero wait, a value, not none. -/
theorem extract_retry_after_clamp_witness :
    extract_retry_after_seconds pfNeg3
      { status_code := 429, retry_after_header := some "-3" } = some 0 := by
  have h := (extract_retry_after_clamp pfNeg3 rfl).1
    { status_code := 429, retry_after_header := some "-3" } "-3" (-3) rfl rfl
  rw [h]
  norm_num [pymax]

/-- C7: for every attempt a >= 1 and every jitter draw j in the
configured range, calculate_delay returns min(max_delay, h + j) when a
response is present, the policy honors Retry-After and the extracted
hint is h; in every other case - hint absent or unparseable, the policy
not honoring the header, or no response at all - it returns the capped
exponential backoff min(base_delay * multiplier^(a-1), max_delay) with
the jitter added after the cap. -/
theorem calculate_delay_cases (pf : String → Option ℚ) (p : RetryPolicy) (a : Nat)
    (j : ℚ) (ha : 1 ≤ a) (hj : p.jitter_lo ≤ j ∧ j < p.jitter_hi) :
    (∀ (r : Response) (h : ℚ), p.respect_retry_after = true →
      extract_retry_after_seconds pf r = some h →
      calculate_delay pf a p (some r) j = pymin p.max_delay (h + j)) ∧
    (∀ r : Response, extract_retry_after_seconds pf r = none →
      calculate_delay pf a p (some r) j =
        pymin (p.base_delay * p.backoff_multiplier ^ (a - 1)) p.max_delay + j) ∧
    (∀ r : Response, p.respect_retry_after = false →
      calculate_delay pf a p (some r) j =
        pymin (p.base_delay * p.backoff_multiplier ^ (a - 1)) p.max_delay + j) ∧
    (calculate_delay pf a p none j =
      pymin (p.base_delay * p.backoff_multiplier ^ (a - 1)) p.max_delay + j) := by
  refine ⟨?_, ?_, ?_, ?_⟩
  · intro r h hr hx
    simp [calculate_delay, hr, hx]
  · intro r hx
    cases hrr : p.respect_retry_after <;> simp [calculate_delay, hrr, hx]
  · intro r hr
    simp [calculate_delay, hr]
  · simp [calculate_delay]

/-- C7 witness: attempt 1, jitter draw 1/8 of the default range, a
negative hint clamped to 0: the delay is min(8, 0 + 1/8) = 1/8. -/
theorem calculate_delay_cases_witness :
    calculate_delay pfNeg3 1 {}
      (some { status_code := 503, retry_after_header := some "-3" }) (1/8) = 1/8 := by
  have hx : extract_retry_after_seconds pfNeg3
      { status_code := 503, retry_after_header := some "-3" } = some 0 := by
    norm_num [extract_retry_after_seconds, pfNeg3, pymax,
      show ("-3" : String) ≠ "" from by decide]
  have h := (calculate_delay_cases pfNeg3 {} 1 (1/8) le_rfl
      (show (0 : ℚ) ≤ 1/8 ∧ (1/8 : ℚ) < 1/4 by norm_num)).1
    { status_code := 503, retry_after_header := some "-3" } 0 rfl hx
  rw [h]
  norm_num [show ({} : RetryPolicy).max_delay = 8 from rfl, pymin]

/-- C8: raise_for_response returns normally exactly on the 2xx statuses;
on every other status it raises the error class chosen by
get_error_by_status, which sends 401 to AuthError, 403 to
PermissionError, 404 to NotFoundError, 408 and 429 to RateLimitError,
the 5xx range to ServerError and every remaining status to the generic
HttpError; the raised error carries the code and detail taken from the
code and message/error fields of a decoded body, and falls back to the
stringified status as code and the raw text as detail when the body does
not decode. -/
theorem raise_for_response_classification :
    (∀ resp : Response, 200 ≤ resp.status_code → resp.status_code < 300 →
      raise_for_response resp = none) ∧
    (∀ resp : Response, ¬(200 ≤ resp.status_code ∧ resp.status_code < 300) →
      ∃ err, raise_for_response resp = some err ∧ err.status = resp.status_code ∧
        err.cls = get_error_by_status resp.status_code) ∧
    (get_error_by_status 401 = .authError ∧ get_error_by_status 403 = .permissionError ∧
      get_error_by_status 404 = .notFoundError ∧ get_error_by_status 408 = .rateLimitError ∧
      get_error_by_status 429 = .rateLimitError) ∧
    (∀ s : Nat, 500 ≤ s → s < 600 → get_error_by_status s = .serverError) ∧
    (∀ s : Nat, s ∉ ([401, 403, 404, 408, 429] : List Nat) → ¬(500 ≤ s ∧ s < 600) →
      get_error_by_status s = .httpError) ∧
    (∀ (resp : Response) (data : JsonObj) (err : RaisedError) (c m : String),
      resp.json = some data → raise_for_response resp = some err →
      data.code = some c → c ≠ "" → data.message = some m → m ≠ "" →
      err.code = some c ∧ err.detail = m) ∧
    (∀ (resp : Response) (err : RaisedError), resp.json = none →
      raise_for_response resp = some err →
      err.code = some (toString resp.status_code) ∧
      (resp.text ≠ "" → err.detail = resp.text)) := by
  refine ⟨?_, ?_, ?_, ?_, ?_, ?_, ?_⟩
  · intro resp h1 h2
    simp [raise_for_response, h1, h2]
  · intro resp h
    unfold raise_for_response
    rw [if_neg h]
    exact ⟨_, rfl, rfl, rfl⟩
  · refine ⟨rfl, rfl, rfl, rfl, ?_⟩
    unfold get_error_by_status
    norm_num
  · intro s h5 h6
    unfold get_error_by_status
    rw [if_neg (by omega), if_neg (by omega), if_neg (by omega),
      if_neg (by omega), if_pos (by omega)]
  · intro s hmem hrange
    simp only [List.mem_cons, List.not_mem_nil, or_false, not_or] at hmem
    obtain ⟨h1, h2, h3, h4, h5⟩ := hmem
    unfold get_error_by_status
    rw [if_neg h1, if_neg h2, if_neg h3, if_neg (not_or.mpr ⟨h4, h5⟩), if_neg hrange]
  · intro resp data err c m hj herr hc hcne hm hmne
    unfold raise_for_response at herr
    split at herr
    · exact absurd herr (by simp)
    · rw [hj] at herr
      simp only [Option.some.injEq] at herr
      subst herr
      constructor
      · simp [pyOrStr, hc, hcne]
      · simp [pyOrStr, hm, hmne]
  · intro resp err hj herr
    unfold raise_for_response at herr
    split at herr
    · exact absurd herr (by simp)
    · rw [hj] at herr
      simp only [Option.some.injEq] at herr
      subst herr
      refine ⟨rfl, fun ht => ?_⟩
      simp [pyOrStr, ht]

/-- C8 witness: a 204 raises nothing and a 503 maps to ServerError. -/
theorem raise_for_response_classification_witness :
    raise_for_response { status_code := 204 } = none ∧
    get_error_by_status 503 = .serverError :=
  ⟨raise_for_response_classification.1 { status_code := 204 } (by norm_num) (by norm_num),
   raise_for_response_classification.2.2.2.1 503 (by norm_num) (by norm_num)⟩

/-- The loop body runs at most fuel times, so the number of sends is at
most the fuel the guard allows. -/
lemma send_loop_sends_le (p : RetryPolicy) (req : Request) (pf : String → Option ℚ)
    (sends : Nat → Sum Response ExcKind) (jit : Nat → ℚ) :
    ∀ (fuel : Nat) (lastExc : Option ExcKind) (attempt : Nat),
      (send_loop p req pf sends jit lastExc attempt fuel).1 ≤ fuel := by
  intro fuel
  induction fuel with
  | zero =>
      intro lastExc attempt
      simp [send_loop]
  | succ n ih =>
      intro lastExc attempt
      simp only [send_loop]
      split
      · exact Nat.succ_le_succ (ih _ _)
      · split <;> simp

/-- Under the loop invariant attempt + fuel = max_attempts + 1, at most
fuel - 1 delays are slept, because the guard attempt < max_attempts
blocks a sleep on the last allowed attempt. -/
lemma send_loop_delays_le (p : RetryPolicy) (req : Request) (pf : String → Option ℚ)
    (sends : Nat → Sum Response ExcKind) (jit : Nat → ℚ) :
    ∀ (fuel : Nat) (lastExc : Option ExcKind) (attempt : Nat),
      attempt + fuel = p.max_attempts + 1 →
      (send_loop p req pf sends jit lastExc attempt fuel).2.1.length ≤ fuel - 1 := by
  intro fuel
  induction fuel with
  | zero =>
      intro lastExc attempt hinv
      simp [send_loop]
  | succ n ih =>
      intro lastExc attempt hinv
      simp only [send_loop]
      split
      · rename_i hcond
        obtain ⟨hlt, -⟩ := hcond
        have hrec := ih (match sends attempt with
          | .inr e => some e
          | .inl _ => lastExc) (attempt + 1) (by omega)
        simp only [List.length_cons]
        omega
      · split <;> simp

/-- C6: with max_attempts at least 1 the retry loop performs at most
max_attempts sends and sleeps at most max_attempts - 1 delays; with
max_attempts 3 and 503 retryable, the schedule 503, 503, 200 sleeps
exactly two delays and returns the 200, the schedule 503, 503, 503
sleeps exactly two delays and returns the third 503 rather than raising,
and a connect error on every attempt under max_attempts 2 sleeps exactly
one delay and re-raises the exception after the second attempt. -/
theorem send_with_retries_attempt_bound :
    (∀ (p : RetryPolicy) (req : Request) (pf : String → Option ℚ)
        (sends : Nat → Sum Response ExcKind) (jit : Nat → ℚ), 1 ≤ p.max_attempts →
      (send_with_retries_sync p req pf sends jit).1 ≤ p.max_attempts ∧
      (send_with_retries_sync p req pf sends jit).2.1.length ≤ p.max_attempts - 1) ∧
    send_with_retries_sync p503 ⟨"GET"⟩ pfNone sends_503_503_200 jitZero =
      (3, [1/4, 1/2], .returned resp200s) ∧
    send_with_retries_sync p503 ⟨"GET"⟩ pfNone sends_503_503_503 jitZero =
      (3, [1/4, 1/2], .returned resp503c) ∧
    send_with_retries_sync pMax2 ⟨"GET"⟩ pfNone sendsConnectError jitZero =
      (2, [1/4], .raised .connectError) := by
  refine ⟨?_, ?_, ?_, ?_⟩
  · intro p req pf sends jit hmax
    exact ⟨send_loop_sends_le p req pf sends jit p.max_attempts none 1,
      send_loop_delays_le p req pf sends jit p.max_attempts none 1 (by omega)⟩
  · norm_num [send_with_retries_sync, send_loop, should_retry_request,
      computed_retry_decision, calculate_delay, extract_retry_after_seconds, pymin,
      sends_503_503_200, jitZero, pfNone, p503, resp503a, resp503b, resp200s,
      show str_upper "GET" = "GET" from rfl]
  · norm_num [send_with_retries_sync, send_loop, should_retry_request,
      computed_retry_decision, calculate_delay, extract_retry_after_seconds, pymin,
      sends_503_503_503, jitZero, pfNone, p503, resp503a, resp503b, resp503c,
      show str_upper "GET" = "GET" from rfl]
  · norm_num [send_with_retries_sync, send_loop, should_retry_request,
      computed_retry_decision, calculate_delay, extract_retry_after_seconds, pymin,
      sendsConnectError, jitZero, pfNone, pMax2,
      show str_upper "GET" = "GET" from rfl]

/-- C6 witness: the universal bound applied to the 503 scenario policy:
at most 3 sends and 2 delays. -/
theorem send_with_retries_attempt_bound_witness :
    (send_with_retries_sync p503 ⟨"GET"⟩ pfNone sends_503_503_200 jitZero).1 ≤ 3 ∧
    (send_with_retries_sync p503 ⟨"GET"⟩ pfNone sends_503_503_200 jitZero).2.1.length ≤ 2 :=
  send_with_retries_attempt_bound.1 p503 ⟨"GET"⟩ pfNone sends_503_503_200 jitZero
    (by norm_num [p503])

/-- C2 at a concrete failing input: with a cached token created at time 0
under a 300 second idle timeout, a 401 at time 10 makes auth_flow consult
the provider again at time 11, which performs zero authenticate
exchanges and re-attaches the very same cached token to the single
retried send; nothing is invalidated and no fresh token is fetched,
where the claim requires an invalidation and exactly one forced
refresh.  The terminal part of the claim does hold in the trace: only
two sends ever happen. -/
theorem auth_flow_reuses_cached_token_on_401 :
    auth_flow cachedState 10 ⟨"fresh1", 10⟩ 401 11 ⟨"fresh2", 11⟩ =
      ({ sent_tokens := ["cached", "cached"], exchanges := 0 }, cachedState) := by
  have h1 : sync_get_token cachedState 10 ⟨"fresh1", 10⟩ = (cachedState, "cached", false) := by
    simp [sync_get_token, cachedState, has_token_expired]
    norm_num
  have h2 : sync_get_token cachedState 11 ⟨"fresh2", 11⟩ = (cachedState, "cached", false) := by
    simp [sync_get_token, cachedState, has_token_expired]
    norm_num
  simp [auth_flow, h1, h2]
